import Mathlib

/-!
Shallow embedding of the four-perimeter permission-check pipeline of the
fine-grained-permission repository (two variants: `src/project/main.py`,
namespace `Project` below, and `src/main.py`, namespace `Root` below).

Modelling conventions:
* The external Permit PDP client's `permit.check(user, action, resource)`
  coroutine is abstracted as a function `Pdp` from the (user id, action
  string, resource descriptor) triple to `Except PermitApiError Bool`:
  `Except.ok` is the PDP's allow/deny answer, `Except.error` models the
  client raising `PermitApiError`.
* A Python function body wrapped in `try ... except PermitApiError as e:
  raise SecurityError(f"<ctx>: {str(e)}")` becomes an `Except` computation
  post-composed with `Except.mapError`.
* Python `float` is modelled as `ℚ` (exact for the integer thresholds and
  the zero-truthiness test the code performs), Python `str.lower()` as a
  character-wise `Char.toLower` map, and the Python substring test
  `needle in hay` as `charsSub` below.
* In-place mutation of a `FinancialResponse` by the response gate is
  modelled by returning the updated response next to the gate's result
  dictionary.
-/

/-- Transport/API error raised by the Permit client (`permit.exceptions.PermitApiError`),
identified by its message string. -/
structure PermitApiError where
  msg : String
deriving DecidableEq

/-- Model of `SecurityError` from both `src/main.py` and `src/project/main.py`:
"Custom exception for security-related errors." -/
structure SecurityError where
  msg : String
deriving DecidableEq

/-- Resource descriptors passed to `permit.check` by the gates.  Each
constructor mirrors one literal dict (or plain string) shape from the source. -/
inductive Resource where
  /-- Model of `{"type": "certification", "level": l}` -/
  | certification (level : String)
  /-- Model of `{"type": "advice_type", "category": c}` -/
  | advice_type (category : String)
  /-- Model of `{"type": "financial_action", "action": a}` -/
  | financial_action (action : String)
  /-- Model of `{"type": "response", "certification": c}` -/
  | response (certification : String)
  /-- Model of `{"type": "financial_queries", "attributes": {"length": n}}` -/
  | financial_queries (length : Nat)
  /-- Model of `{"type": "financial_advice", "attributes": {"length": n}}` -/
  | financial_advice (length : Nat)
  /-- Model of `{"type": "api", "attributes": {"endpoint": e}}` -/
  | api (endpoint : String)
  /-- a plain string resource such as `"documentation"` -/
  | str (s : String)
deriving DecidableEq

/-- The PDP capability: one `permit.check` call.  `Except.error` models the
client raising `PermitApiError`. -/
def Pdp : Type := String → String → Resource → Except PermitApiError Bool

/-- A PDP that never raises: it answers every check with the boolean given by `f`. -/
def pureOf (f : String → String → Resource → Bool) : Pdp :=
  fun u a r => Except.ok (f u a r)

/-- A PDP whose every call raises `PermitApiError e`. -/
def errPdp (e : PermitApiError) : Pdp :=
  fun _ _ _ => Except.error e

/-- Python's `a.startswith`-style prefix test on character lists (decidable,
used to build the substring test). -/
def charsLead : List Char → List Char → Bool
  | [], _ => true
  | _ :: _, [] => false
  | x :: xs, y :: ys => x == y && charsLead xs ys

/-- Python's substring test `a in b` on character lists. -/
def charsSub (a b : List Char) : Bool :=
  match b with
  | [] => a.isEmpty
  | _ :: bs => charsLead a b || charsSub a bs

/-- Python `str.lower()` (character-wise; the source only lowercases ASCII text). -/
def pyLower (s : String) : List Char := s.data.map Char.toLower

/-- Python `keyword in question` where `question` is an already-lowered string. -/
def pyIn (needle : String) (hay : List Char) : Bool := charsSub needle.data hay

/-- Python truthiness of an `Optional[float]`: `None` and `0.0` are falsy. -/
def pyTruthyQ : Option ℚ → Bool
  | none => false
  | some v => v != 0

/-- Python truthiness of an `Optional[bool]`: only `True` is truthy. -/
def pyTruthyB : Option Bool → Bool
  | none => false
  | some b => b

/-- The `try: ... except PermitApiError as e: raise SecurityError(f"<ctx>{str(e)}")`
pattern common to every gate: run the body, wrapping any PDP error in a
`SecurityError` whose message starts with the gate's own context string. -/
def wrapErr {α : Type} (ctx : String) (body : Except PermitApiError α) :
    Except SecurityError α :=
  match body with
  | Except.ok a => Except.ok a
  | Except.error e => Except.error { msg := ctx ++ e.msg }

namespace Project

/-- Model of `UserContext` of `src/project/main.py`. -/
structure UserContext where
  user_id : String
  tier : String := "free"
deriving DecidableEq

/-- Model of `FinancialQuery` of `src/project/main.py` (`portfolio_value : Optional[float]`
modelled as `Option ℚ`). -/
structure FinancialQuery where
  question : String
  context : UserContext
  risk_profile : Option String := none
  portfolio_value : Option ℚ := none
  investment_horizon : Option String := none
deriving DecidableEq

/-- Model of `FinancialResponse` of `src/project/main.py`. -/
structure FinancialResponse where
  answer : String
  compliance_notes : List String := []
  certification_level : String := "general"
  risk_warnings : List String := []
deriving DecidableEq

/-- The dict returned by `validate_financial_query` in `src/project/main.py`. -/
structure QueryValidation where
  permitted : Bool
  certification_level : String
  warnings : List String
deriving DecidableEq

/-- The dict returned by `validate_financial_response` in `src/project/main.py`. -/
structure ResponseValidation where
  permitted : Bool
  certification_verified : String
  warnings : List String
deriving DecidableEq

/-- The `expert_keywords` list local to `get_required_certification` in
`src/project/main.py`. -/
def expert_keywords : List String :=
  ["derivatives", "hedge", "institutional", "merger", "acquisition",
   "structured products", "foreign exchange", "forex", "options trading"]

/-- The `professional_keywords` list local to `get_required_certification` in
`src/project/main.py`. -/
def professional_keywords : List String :=
  ["portfolio", "tax strategy", "estate planning", "retirement",
   "investment strategy", "risk assessment", "asset allocation"]

/-- Model of `get_required_certification` from `src/project/main.py`: keyword matches
decide first, then the portfolio-value thresholds. -/
def get_required_certification (query : FinancialQuery) : String :=
  let question := pyLower query.question
  if expert_keywords.any (fun k => pyIn k question) then "expert"
  else if professional_keywords.any (fun k => pyIn k question) then "professional"
  else if pyTruthyQ query.portfolio_value then
    match query.portfolio_value with
    | some v => if v ≥ 1000000 then "expert" else if v ≥ 100000 then "professional" else "general"
    | none => "general"
  else "general"

/-- Model of `needs_risk_profile` from `src/project/main.py`. -/
def needs_risk_profile (query : FinancialQuery) : Bool :=
  let risk_required_keywords : List String :=
    ["invest", "portfolio", "allocation", "strategy", "return", "growth", "income", "risk"]
  let question := pyLower query.question
  let requires_risk := risk_required_keywords.any (fun k => pyIn k question)
  if query.portfolio_value.isSome then true else requires_risk

/-- Model of `categorize_query` from `src/project/main.py` (dict iteration order is the
literal insertion order). -/
def categorize_query (query : FinancialQuery) : String :=
  let categories : List (String × List String) :=
    [("investment", ["invest", "stock", "bond", "portfolio", "fund"]),
     ("retirement", ["retire", "pension", "401k", "ira"]),
     ("tax", ["tax", "deduction", "write-off", "exemption"]),
     ("estate", ["estate", "will", "trust", "inheritance"]),
     ("general", ["advice", "recommend", "should i", "how to"])]
  let question := pyLower query.question
  match categories.find? (fun c => c.2.any (fun k => pyIn k question)) with
  | some c => c.1
  | none => "general"

/-- Model of `get_regulatory_warnings` from `src/project/main.py`. -/
def get_regulatory_warnings (query : FinancialQuery) : List String :=
  let category := categorize_query query
  let warnings : List String :=
    ["This information is for educational purposes only and not financial advice"]
  let category_warnings : List (String × List String) :=
    [("investment",
      ["Past performance is not indicative of future results",
       "Investment involves risk of loss"]),
     ("retirement",
      ["Consult a tax professional for specific retirement advice",
       "Early withdrawal penalties may apply"]),
     ("tax",
      ["Tax laws are subject to change",
       "Consult a tax professional for your specific situation"]),
     ("estate",
      ["Estate laws vary by jurisdiction",
       "Consult a legal professional for estate planning"])]
  let warnings := warnings ++ (List.lookup category category_warnings).getD []
  if needs_risk_profile query then
    warnings ++ ["A complete risk assessment is required for personalized investment advice"]
  else warnings

/-- Model of `get_required_disclaimers` from `src/project/main.py`. -/
def get_required_disclaimers (certification_level : String) : List String :=
  let base_disclaimers : List String :=
    ["Past performance is not indicative of future results",
     "Financial advice may not be suitable for everyone"]
  let level_specific_disclaimers : List (String × List String) :=
    [("general",
      ["This is general information only",
       "Consult a professional for specific advice"]),
     ("professional",
      ["Advice is based on provided information",
       "Additional consultation may be required",
       "Services provided under professional certification"]),
     ("expert",
      ["Complex financial products carry significant risks",
       "Services provided under expert certification",
       "Regular review and updates recommended"])]
  base_disclaimers ++ (List.lookup certification_level level_specific_disclaimers).getD []

/-- Model of `needs_risk_warnings` from `src/project/main.py`. -/
def needs_risk_warnings (response_text : String) : Bool :=
  let risk_triggers : List String :=
    ["invest", "risk", "return", "growth", "portfolio",
     "stock", "bond", "fund", "market", "trade"]
  risk_triggers.any (fun k => pyIn k (pyLower response_text))

/-- Model of `get_required_risk_warnings` from `src/project/main.py`. -/
def get_required_risk_warnings (response_text : String) : List String :=
  let text := pyLower response_text
  let warnings : List String := []
  let warnings := if pyIn "stock" text || pyIn "equity" text then
    warnings ++ ["Stock investments can result in significant loss of principal"] else warnings
  let warnings := if pyIn "bond" text || pyIn "fixed income" text then
    warnings ++ ["Bond values fluctuate with interest rates and credit quality"] else warnings
  let warnings := if pyIn "international" text || pyIn "foreign" text then
    warnings ++ ["International investments carry additional risks including currency fluctuations"]
    else warnings
  let warnings := if pyIn "small" text && (pyIn "cap" text || pyIn "company" text) then
    warnings ++ ["Small cap investments may have limited liquidity and higher volatility"]
    else warnings
  let warnings := if pyIn "high" text && pyIn "yield" text then
    warnings ++ ["High yield investments carry increased default risk"] else warnings
  if !warnings.isEmpty then
    warnings ++ ["All investments carry risk of loss. Diversification does not guarantee against loss."]
  else warnings

/-- SECURITY PERIMETER 1 of `src/project/main.py`: `validate_financial_query`. -/
def validate_financial_query (pdp : Pdp) (user_id : String) (query : FinancialQuery) :
    Except SecurityError QueryValidation :=
  wrapErr "Advice permission check failed: " (do
    let certification_check ← pdp user_id "provide_advice"
      (Resource.certification (get_required_certification query))
    let regulatory_check ← pdp user_id "regulatory_compliance"
      (Resource.advice_type (categorize_query query))
    pure { permitted := certification_check && regulatory_check
           certification_level := get_required_certification query
           warnings := get_regulatory_warnings query })

/-- SECURITY PERIMETER 2 of `src/project/main.py`: `access_financial_knowledge`. -/
def access_financial_knowledge (pdp : Pdp) (user_id : String) (_query : FinancialQuery) :
    Except SecurityError (List String) :=
  wrapErr "Documentation access check failed: " (do
    let allowed_docs : List String := ["general_education", "basic_principles"]
    let professional_access ← pdp user_id "access_professional_docs" (Resource.str "documentation")
    let allowed_docs := if professional_access then
      allowed_docs ++ ["professional_guidelines", "regulatory_frameworks", "investment_strategies"]
      else allowed_docs
    let expert_access ← pdp user_id "access_expert_docs" (Resource.str "documentation")
    let allowed_docs := if expert_access then
      allowed_docs ++ ["advanced_analysis", "specialized_strategies", "institutional_research"]
      else allowed_docs
    pure allowed_docs)

/-- SECURITY PERIMETER 3 of `src/project/main.py`: `check_action_permissions`.
All three PDP checks are awaited while the dict literal is built, before
`dict.get(action, False)` selects the answer. -/
def check_action_permissions (pdp : Pdp) (user_id : String) (action : String)
    (_context : UserContext) : Except SecurityError Bool :=
  wrapErr "Action permission check failed: " (do
    let basic ← pdp user_id "provide" (Resource.financial_action "basic_advice")
    let portfolio ← pdp user_id "analyze" (Resource.financial_action "portfolio_analysis")
    let specific ← pdp user_id "recommend" (Resource.financial_action "specific_recommendations")
    let action_permissions : List (String × Bool) :=
      [("basic_advice", basic), ("portfolio_analysis", portfolio),
       ("specific_recommendations", specific)]
    pure ((List.lookup action action_permissions).getD false))

/-- The pure mutation block of `validate_financial_response`
(`src/project/main.py` lines 237-248): append missing certification-level
disclaimers to `compliance_notes`, then blindly extend `risk_warnings` when
the answer text triggers risk warnings. -/
def apply_response_requirements (response : FinancialResponse) : FinancialResponse :=
  let required_disclaimers := get_required_disclaimers response.certification_level
  let missing_disclaimers :=
    required_disclaimers.filter (fun d => !(List.contains response.compliance_notes d))
  let response := if missing_disclaimers.isEmpty then response
    else { response with compliance_notes := response.compliance_notes ++ missing_disclaimers }
  if needs_risk_warnings response.answer then
    { response with
      risk_warnings := response.risk_warnings ++ get_required_risk_warnings response.answer }
  else response

/-- SECURITY PERIMETER 4 of `src/project/main.py`: `validate_financial_response`.
Returns the mutated response together with the result dict. -/
def validate_financial_response (pdp : Pdp) (user_id : String)
    (response : FinancialResponse) (_context : UserContext) :
    Except SecurityError (FinancialResponse × ResponseValidation) :=
  wrapErr "Response validation failed: " (do
    let compliance_check ← pdp user_id "compliance_validation"
      (Resource.response response.certification_level)
    let response := apply_response_requirements response
    pure (response,
      { permitted := compliance_check
        certification_verified := response.certification_level
        warnings := response.compliance_notes ++ response.risk_warnings }))

end Project

namespace Root

/-- Model of `UserContext` of `src/main.py`. -/
structure UserContext where
  user_id : String
  tier : String := "free"
deriving DecidableEq

/-- Model of `FinancialQuery` of `src/main.py` (`portfolio_value : Optional[float]`
modelled as `Option ℚ`). -/
structure FinancialQuery where
  question : String
  context : UserContext
  portfolio_value : Option ℚ := none
deriving DecidableEq

/-- Model of `FinancialResponse` of `src/main.py`. -/
structure FinancialResponse where
  answer : String
  compliance_notes : List String := []
  used_premium_features : Bool := false
deriving DecidableEq

/-- The `{"permitted": ..., "warnings": ...}` dict returned by the two
validation tools of `src/main.py`. -/
structure Decision where
  permitted : Bool
  warnings : List String
deriving DecidableEq

/-- Model of `validate_financial_query` of `src/main.py`: base "submit" check on the
query length; if `portfolio_value is not None`, an additional
"analyze_portfolio" check is ANDed in.  `portfolio_permitted` starts as
Python `None`, so the warning is emitted whenever it is not `True`. -/
def validate_financial_query (pdp : Pdp) (user_id : String) (query : FinancialQuery) :
    Except SecurityError Decision :=
  wrapErr "Permission check failed: " (do
    let portfolio_permitted : Option Bool := none
    let permitted ← pdp user_id "submit" (Resource.financial_queries query.question.length)
    let (permitted, portfolio_permitted) ←
      match query.portfolio_value with
      | some _ => do
          let pp ← pdp user_id "analyze_portfolio" (Resource.str "financial_analysis")
          pure (permitted && pp, some pp)
      | none => pure (permitted, portfolio_permitted)
    pure { permitted := permitted
           warnings := if !(pyTruthyB portfolio_permitted) then
             ["Portfolio analysis requires premium"] else [] })

/-- Model of `validate_financial_advice` of `src/main.py`: base "receive" check on the
answer length; if `used_premium_features`, an additional "access_premium"
check is ANDed in.  Same Python-`None` truthiness pattern for the warning. -/
def validate_financial_advice (pdp : Pdp) (user_id : String)
    (response : FinancialResponse) (_context : UserContext) :
    Except SecurityError Decision :=
  wrapErr "Permission check failed: " (do
    let premium_permitted : Option Bool := none
    let permitted ← pdp user_id "receive" (Resource.financial_advice response.answer.length)
    let (permitted, premium_permitted) ←
      if response.used_premium_features then do
        let pp ← pdp user_id "access_premium" (Resource.str "financial_advice")
        pure (permitted && pp, some pp)
      else pure (permitted, premium_permitted)
    pure { permitted := permitted
           warnings := if !(pyTruthyB premium_permitted) then
             ["Premium features not available"] else [] })

/-- Model of `access_financial_knowledge` of `src/main.py`: basic docs always, premium
docs appended after a single "access_premium_docs" check. -/
def access_financial_knowledge (pdp : Pdp) (user_id : String) (_query : FinancialQuery) :
    Except SecurityError (List String) :=
  wrapErr "Documentation access check failed: " (do
    let basic_docs : List String := ["general_advice", "market_basics"]
    let premium_permitted ← pdp user_id "access_premium_docs" (Resource.str "documentation")
    if premium_permitted then
      pure (basic_docs ++ ["advanced_strategies", "tax_planning", "portfolio_optimization"])
    else
      pure basic_docs)

/-- Model of `validate_market_data_access` of `src/main.py`: both API endpoint checks
are awaited while the dict is built, then `all(api_permissions.values())`. -/
def validate_market_data_access (pdp : Pdp) (user_id : String) (_context : UserContext) :
    Except SecurityError Bool :=
  wrapErr "API permission check failed: " (do
    let market_data ← pdp user_id "access" (Resource.api "market_data")
    let portfolio_analysis ← pdp user_id "access" (Resource.api "portfolio_analysis")
    let api_permissions : List (String × Bool) :=
      [("market_data", market_data), ("portfolio_analysis", portfolio_analysis)]
    pure (api_permissions.all (fun p => p.2)))

end Root

/-- The four perimeter gates of a conversation turn, in pipeline order. -/
inductive GateId where
  | prompt
  | retrieval
  | action
  | response
deriving DecidableEq

/-- Pipeline position of each gate. -/
def gateIdx : GateId → Nat
  | GateId.prompt => 0
  | GateId.retrieval => 1
  | GateId.action => 2
  | GateId.response => 3

/-- The pipeline order of the four gates. -/
def gateOrder : List GateId := [GateId.prompt, GateId.retrieval, GateId.action, GateId.response]

/-- Terminal states of one conversation turn. -/
inductive TurnState where
  | done
  | denied
  | failed
deriving DecidableEq

/-- Modelled from the spec: the Agent Orchestrator's per-turn pipeline
(`START -> PROMPT_CHECKED -> (RETRIEVAL_CHECKED)? -> (ACTION_CHECKED)? ->
RESPONSE_CHECKED -> DONE`).  The orchestrator itself is the external
LLM tool-calling loop (`financial_agent = Agent(...)` in the source) and has
no body under `src/`, so its control flow is taken from the spec: gates run
in pipeline order; a gate whose Decision has `allowed = false` moves the turn
to the terminal `denied` state and a gate raising a `SecurityError` moves it
to terminal `failed`, in both cases skipping every later gate.  Each gate is
abstracted as its `Decision.allowed` outcome `g : GateId → Except SecurityError Bool`;
the result is the final state together with the trace of gates actually invoked. -/
def runGates (g : GateId → Except SecurityError Bool) :
    List GateId → TurnState × List GateId
  | [] => (TurnState.done, [])
  | k :: ks =>
    match g k with
    | Except.error _ => (TurnState.failed, [k])
    | Except.ok false => (TurnState.denied, [k])
    | Except.ok true =>
      let rest := runGates g ks
      (rest.1, k :: rest.2)

/-- Modelled from the spec: one full conversation turn of the Orchestrator. -/
def runTurn (g : GateId → Except SecurityError Bool) : TurnState × List GateId :=
  runGates g gateOrder

/-- Extract the value of a non-raising gate call (with a fallback for the
raising case). -/
def okOr {α : Type} (d : α) : Except SecurityError α → α
  | Except.ok a => a
  | Except.error _ => d

/-- A PDP decision function that allows every check. -/
def allowAll : String → String → Resource → Bool := fun _ _ _ => true

namespace Project

/-- All document category strings the project retrieval gate can ever emit,
in emission order (basic, then professional, then expert extensions). -/
def documentationCatalog : List String :=
  ["general_education", "basic_principles",
   "professional_guidelines", "regulatory_frameworks", "investment_strategies",
   "advanced_analysis", "specialized_strategies", "institutional_research"]

/-- One run of the response gate under a never-raising PDP, keeping the
mutated response (the Python code mutates its `response` argument in place). -/
def response_gate_run (f : String → String → Resource → Bool) (user_id : String)
    (context : UserContext) (response : FinancialResponse) : FinancialResponse :=
  match validate_financial_response (pureOf f) user_id response context with
  | Except.ok p => p.1
  | Except.error _ => response

/-- One run of the response gate under a never-raising PDP, keeping the
returned result dict. -/
def response_gate_result (f : String → String → Resource → Bool) (user_id : String)
    (context : UserContext) (response : FinancialResponse) : ResponseValidation :=
  match validate_financial_response (pureOf f) user_id response context with
  | Except.ok p => p.2
  | Except.error _ => { permitted := false, certification_verified := "", warnings := [] }

end Project

/-- A gate outcome assignment under which every gate denies. -/
def denyAllGates : GateId → Except SecurityError Bool := fun _ => Except.ok false

namespace Root

/-- All document category strings the root retrieval gate can ever emit,
in emission order (basic, then premium extensions). -/
def documentationCatalog : List String :=
  ["general_advice", "market_basics",
   "advanced_strategies", "tax_planning", "portfolio_optimization"]

end Root

namespace Project

theorem response_gate_run_eq (f : String → String → Resource → Bool) (user_id : String)
    (context : UserContext) (response : FinancialResponse) :
    response_gate_run f user_id context response = apply_response_requirements response := rfl

theorem apply_requirements_answer (r : FinancialResponse) :
    (apply_response_requirements r).answer = r.answer := by
  simp only [apply_response_requirements]
  split_ifs <;> simp_all [List.isEmpty_iff]

theorem apply_requirements_level (r : FinancialResponse) :
    (apply_response_requirements r).certification_level = r.certification_level := by
  simp only [apply_response_requirements]
  split_ifs <;> simp_all [List.isEmpty_iff]

theorem apply_requirements_notes (r : FinancialResponse) :
    (apply_response_requirements r).compliance_notes =
      r.compliance_notes ++
        (get_required_disclaimers r.certification_level).filter
          (fun d => !(List.contains r.compliance_notes d)) := by
  simp only [apply_response_requirements]
  split_ifs <;> simp_all [List.isEmpty_iff]

theorem apply_requirements_risk (r : FinancialResponse) :
    (apply_response_requirements r).risk_warnings =
      r.risk_warnings ++
        (if needs_risk_warnings r.answer then get_required_risk_warnings r.answer else []) := by
  simp only [apply_response_requirements]
  split_ifs <;> simp_all [List.isEmpty_iff]

/-- Every required disclaimer is already present after one pass, so the second
pass finds nothing missing. -/
theorem filter_missing_idem (req notes : List String) :
    req.filter
      (fun d => !(List.contains
        (notes ++ req.filter (fun d => !(List.contains notes d))) d)) = [] := by
  rw [List.filter_eq_nil_iff]
  intro d hd
  by_cases h : d ∈ notes
  · simp [h]
  · have hmem : d ∈ req.filter (fun x => !(List.contains notes x)) :=
      List.mem_filter.mpr ⟨hd, by simp [h]⟩
    simp [List.mem_append, hmem]
    exact fun _ => ⟨hd, h⟩

end Project

/-- Auxiliary: the gate try/except wrapper either returns the body's value or
an error whose message extends the gate's own context string — a PDP error is
never swallowed and never turned into a decision. -/
theorem wrapErr_cases {α : Type} (ctx : String) (body : Except PermitApiError α) :
    (∃ a, wrapErr ctx body = Except.ok a) ∨
    (∃ m, wrapErr ctx body = Except.error { msg := ctx ++ m }) := by
  cases body with
  | ok a => exact Or.inl ⟨a, rfl⟩
  | error e => exact Or.inr ⟨e.msg, rfl⟩

/-- Auxiliary: appending the same suffix to two different strings gives two
different strings (right cancellation of string append). -/
theorem string_append_ne_left (a b s : String) (hne : a ≠ b) : a ++ s ≠ b ++ s := by
  intro h
  apply hne
  have hdata := congrArg String.data h
  rw [String.data_append, String.data_append] at hdata
  have hlen : a.data.length = b.data.length := by
    have h2 := congrArg String.length h
    rw [String.length_append, String.length_append] at h2
    have h3 : a.length = b.length := by omega
    exact h3
  exact String.ext (List.append_inj hdata hlen).1

/-- C1 (amended): the project Response Gate is idempotent on `answer` and
`compliance_notes` (missing disclaimers are appended at most once), but a
second application appends the content-derived risk warnings a second time:
the `risk_warnings` of the twice-processed response are those of the
once-processed response extended by `get_required_risk_warnings` of the
(unchanged) answer whenever `needs_risk_warnings` holds of it. -/
theorem C1_response_gate_idempotence (f : String → String → Resource → Bool)
    (user_id : String) (context : Project.UserContext) (r : Project.FinancialResponse) :
    (Project.response_gate_run f user_id context
        (Project.response_gate_run f user_id context r)).answer =
      (Project.response_gate_run f user_id context r).answer ∧
    (Project.response_gate_run f user_id context
        (Project.response_gate_run f user_id context r)).compliance_notes =
      (Project.response_gate_run f user_id context r).compliance_notes ∧
    (Project.response_gate_run f user_id context
        (Project.response_gate_run f user_id context r)).risk_warnings =
      (Project.response_gate_run f user_id context r).risk_warnings ++
        (if Project.needs_risk_warnings r.answer then
          Project.get_required_risk_warnings r.answer else []) := by
  simp only [Project.response_gate_run_eq]
  refine ⟨?_, ?_, ?_⟩
  · rw [Project.apply_requirements_answer, Project.apply_requirements_answer]
  · rw [Project.apply_requirements_notes (Project.apply_response_requirements r),
      Project.apply_requirements_level, Project.apply_requirements_notes r,
      Project.filter_missing_idem, List.append_nil]
  · rw [Project.apply_requirements_risk (Project.apply_response_requirements r),
      Project.apply_requirements_answer]

/-- C1 counterexample: on a response whose answer mentions stock funds, a
second pass of the Response Gate duplicates the risk warnings, so the gate is
not idempotent on `risk_warnings` as the claim states. -/
theorem C1_response_gate_counterexample :
    (Project.response_gate_run allowAll "user@example.com" { user_id := "user@example.com" }
        (Project.response_gate_run allowAll "user@example.com" { user_id := "user@example.com" }
          { answer := "Diversify across stock funds." })).risk_warnings ≠
      (Project.response_gate_run allowAll "user@example.com" { user_id := "user@example.com" }
        { answer := "Diversify across stock funds." }).risk_warnings := by
  decide

/-- C4 (amended): for every response and every non-raising PDP, the project
Response Gate leaves the `answer` field unchanged — `FinancialResponse` has no
`disclaimer_added` or `includes_advice` field to set — and instead appends the
missing certification-level disclaimers to `compliance_notes` (and triggered
risk warnings to `risk_warnings`), with `permitted` mirroring the PDP
compliance check. -/
theorem C4_response_gate_mutates_notes_not_answer (f : String → String → Resource → Bool)
    (user_id : String) (context : Project.UserContext) (r : Project.FinancialResponse) :
    Project.validate_financial_response (pureOf f) user_id r context =
      Except.ok (Project.apply_response_requirements r,
        { permitted := f user_id "compliance_validation" (Resource.response r.certification_level)
          certification_verified := r.certification_level
          warnings := (Project.apply_response_requirements r).compliance_notes ++
            (Project.apply_response_requirements r).risk_warnings }) ∧
    (Project.apply_response_requirements r).answer = r.answer := by
  constructor
  · simp only [Project.validate_financial_response, pureOf, wrapErr, bind, Except.bind,
      pure, Except.pure, Project.apply_requirements_level]
  · exact Project.apply_requirements_answer r

/-- C4 counterexample: a response whose answer plainly contains advisory and
investment language, with a PDP that passes the compliance check, comes back
from the Response Gate with its `answer` unchanged — no regulatory disclaimer
string is appended to the answer field. -/
theorem C4_response_gate_counterexample :
    Project.needs_risk_warnings "I recommend you invest in this stock fund." = true ∧
    (Project.response_gate_result allowAll "user@example.com" { user_id := "user@example.com" }
      { answer := "I recommend you invest in this stock fund." }).permitted = true ∧
    (Project.response_gate_run allowAll "user@example.com" { user_id := "user@example.com" }
      { answer := "I recommend you invest in this stock fund." }).answer =
      "I recommend you invest in this stock fund." := by
  refine ⟨by decide, by decide, by decide⟩

/-- C2 (amended): the root Prompt Gate's warnings list carries the fixed
message "Portfolio analysis requires premium" exactly when the portfolio
sub-check did not succeed — that is, whenever `portfolio_value` is absent (no
sub-check performed, `portfolio_permitted` still `None`) or the sub-check
denied — independently of the base submit check's outcome.  In particular a
query without `portfolio_value` gets the warning, not an empty list. -/
theorem C2_prompt_gate_warning_characterization (f : String → String → Resource → Bool)
    (user_id : String) (q : Root.FinancialQuery) :
    ∃ d, Root.validate_financial_query (pureOf f) user_id q = Except.ok d ∧
      (d.warnings = [] ↔ (q.portfolio_value.isSome ∧
        f user_id "analyze_portfolio" (Resource.str "financial_analysis") = true)) ∧
      (d.warnings = [] ∨ d.warnings = ["Portfolio analysis requires premium"]) := by
  rcases hq : q.portfolio_value with _ | v
  · exact ⟨{ permitted := f user_id "submit" (Resource.financial_queries q.question.length)
             warnings := ["Portfolio analysis requires premium"] },
      by simp [Root.validate_financial_query, pureOf, wrapErr, bind, Except.bind,
        pure, Except.pure, hq, pyTruthyB],
      by simp [hq], by simp⟩
  · cases hb : f user_id "analyze_portfolio" (Resource.str "financial_analysis")
    · exact ⟨{ permitted := false
               warnings := ["Portfolio analysis requires premium"] },
        by simp [Root.validate_financial_query, pureOf, wrapErr, bind, Except.bind,
          pure, Except.pure, hq, hb, pyTruthyB],
        by simp [hb], by simp⟩
    · exact ⟨{ permitted := f user_id "submit" (Resource.financial_queries q.question.length)
               warnings := [] },
        by simp [Root.validate_financial_query, pureOf, wrapErr, bind, Except.bind,
          pure, Except.pure, hq, hb, pyTruthyB],
        by simp [hq, hb], by simp⟩

/-- C2 counterexample: for a query with no `portfolio_value` (so no portfolio
sub-check is performed) and a PDP that allows everything, the root Prompt Gate
still returns the warning "Portfolio analysis requires premium" — the claim's
empty warnings list is refuted. -/
theorem C2_prompt_gate_counterexample :
    Root.validate_financial_query (pureOf allowAll) "user@example.com"
        { question := "hello", context := { user_id := "user@example.com" } } =
      Except.ok { permitted := true, warnings := ["Portfolio analysis requires premium"] } ∧
    (["Portfolio analysis requires premium"] : List String) ≠ [] := by
  refine ⟨rfl, by decide⟩

/-- C3: for every non-raising PDP decision assignment, both variants of the
Retrieval Gate return an order-preserving, duplicate-free sublist of the fixed
document-category catalog (the gate's document universe): no element outside
the catalog, no reordering, no duplication, no altered content. -/
theorem C3_retrieval_gate_subsequence (f : String → String → Resource → Bool)
    (user_id : String) (q : Project.FinancialQuery) (q2 : Root.FinancialQuery) :
    (∃ ds, Project.access_financial_knowledge (pureOf f) user_id q = Except.ok ds ∧
      List.Sublist ds Project.documentationCatalog ∧ ds.Nodup) ∧
    (∃ ds, Root.access_financial_knowledge (pureOf f) user_id q2 = Except.ok ds ∧
      List.Sublist ds Root.documentationCatalog ∧ ds.Nodup) := by
  constructor
  · cases hp : f user_id "access_professional_docs" (Resource.str "documentation") <;>
      cases he : f user_id "access_expert_docs" (Resource.str "documentation")
    · exact ⟨["general_education", "basic_principles"],
        by simp [Project.access_financial_knowledge, pureOf, wrapErr, bind, Except.bind,
          pure, Except.pure, hp, he], by decide, by decide⟩
    · exact ⟨["general_education", "basic_principles",
          "advanced_analysis", "specialized_strategies", "institutional_research"],
        by simp [Project.access_financial_knowledge, pureOf, wrapErr, bind, Except.bind,
          pure, Except.pure, hp, he], by decide, by decide⟩
    · exact ⟨["general_education", "basic_principles",
          "professional_guidelines", "regulatory_frameworks", "investment_strategies"],
        by simp [Project.access_financial_knowledge, pureOf, wrapErr, bind, Except.bind,
          pure, Except.pure, hp, he], by decide, by decide⟩
    · exact ⟨Project.documentationCatalog,
        by simp [Project.access_financial_knowledge, Project.documentationCatalog, pureOf,
          wrapErr, bind, Except.bind, pure, Except.pure, hp, he], by decide, by decide⟩
  · cases hr : f user_id "access_premium_docs" (Resource.str "documentation")
    · exact ⟨["general_advice", "market_basics"],
        by simp [Root.access_financial_knowledge, pureOf, wrapErr, bind, Except.bind,
          pure, Except.pure, hr], by decide, by decide⟩
    · exact ⟨Root.documentationCatalog,
        by simp [Root.access_financial_knowledge, Root.documentationCatalog, pureOf,
          wrapErr, bind, Except.bind, pure, Except.pure, hr], by decide, by decide⟩

/-- C10: under every non-raising PDP decision assignment, both retrieval-gate
variants grant the two fixed basic document categories as the first two
elements of the result (even when every check denies), and in the project
variant the expert-tier extension is present exactly when the expert check
allows — independently of the professional-tier check (no tier hierarchy). -/
theorem C10_baseline_docs_always (f : String → String → Resource → Bool)
    (user_id : String) (q : Project.FinancialQuery) (q2 : Root.FinancialQuery) :
    (∃ ds, Project.access_financial_knowledge (pureOf f) user_id q = Except.ok ds ∧
      List.take 2 ds = ["general_education", "basic_principles"] ∧
      (("advanced_analysis" ∈ ds) ↔
        f user_id "access_expert_docs" (Resource.str "documentation") = true)) ∧
    (∃ ds, Root.access_financial_knowledge (pureOf f) user_id q2 = Except.ok ds ∧
      List.take 2 ds = ["general_advice", "market_basics"]) := by
  constructor
  · cases hp : f user_id "access_professional_docs" (Resource.str "documentation") <;>
      cases he : f user_id "access_expert_docs" (Resource.str "documentation")
    · exact ⟨["general_education", "basic_principles"],
        by simp [Project.access_financial_knowledge, pureOf, wrapErr, bind, Except.bind,
          pure, Except.pure, hp, he], by decide, by decide⟩
    · exact ⟨["general_education", "basic_principles",
          "advanced_analysis", "specialized_strategies", "institutional_research"],
        by simp [Project.access_financial_knowledge, pureOf, wrapErr, bind, Except.bind,
          pure, Except.pure, hp, he], by decide, by decide⟩
    · exact ⟨["general_education", "basic_principles",
          "professional_guidelines", "regulatory_frameworks", "investment_strategies"],
        by simp [Project.access_financial_knowledge, pureOf, wrapErr, bind, Except.bind,
          pure, Except.pure, hp, he], by decide, by decide⟩
    · exact ⟨["general_education", "basic_principles",
          "professional_guidelines", "regulatory_frameworks", "investment_strategies",
          "advanced_analysis", "specialized_strategies", "institutional_research"],
        by simp [Project.access_financial_knowledge, pureOf, wrapErr, bind, Except.bind,
          pure, Except.pure, hp, he], by decide, by decide⟩
  · cases hr : f user_id "access_premium_docs" (Resource.str "documentation")
    · exact ⟨["general_advice", "market_basics"],
        by simp [Root.access_financial_knowledge, pureOf, wrapErr, bind, Except.bind,
          pure, Except.pure, hr], by decide⟩
    · exact ⟨["general_advice", "market_basics",
          "advanced_strategies", "tax_planning", "portfolio_optimization"],
        by simp [Root.access_financial_knowledge, pureOf, wrapErr, bind, Except.bind,
          pure, Except.pure, hr], by decide⟩

/-- C5 (amended): the certification thresholds hold provided no certification
keyword matches the question (keyword matches take precedence over the
portfolio value in the source): with no keyword match, portfolio value
1,500,000 yields "expert", 150,000 yields "professional", and no portfolio
value yields "general". -/
theorem C5_certification_thresholds (q : Project.FinancialQuery)
    (hex : Project.expert_keywords.any (fun k => pyIn k (pyLower q.question)) = false)
    (hpro : Project.professional_keywords.any (fun k => pyIn k (pyLower q.question)) = false) :
    (q.portfolio_value = some 1500000 → Project.get_required_certification q = "expert") ∧
    (q.portfolio_value = some 150000 → Project.get_required_certification q = "professional") ∧
    (q.portfolio_value = none → Project.get_required_certification q = "general") := by
  refine ⟨?_, ?_, ?_⟩ <;> intro h <;>
    simp [Project.get_required_certification, hex, hpro, h, pyTruthyQ] <;> norm_num

/-- C5 witness: at a query with no keyword match the three amended cases
evaluate as stated. -/
theorem C5_certification_thresholds_witness :
    Project.get_required_certification
      { question := "What should I do?", context := { user_id := "user@example.com" },
        portfolio_value := some 1500000 } = "expert" ∧
    Project.get_required_certification
      { question := "What should I do?", context := { user_id := "user@example.com" },
        portfolio_value := some 150000 } = "professional" ∧
    Project.get_required_certification
      { question := "What should I do?", context := { user_id := "user@example.com" } } =
      "general" :=
  ⟨(C5_certification_thresholds _ (by decide) (by decide)).1 rfl,
   (C5_certification_thresholds _ (by decide) (by decide)).2.1 rfl,
   (C5_certification_thresholds _ (by decide) (by decide)).2.2 rfl⟩

/-- C5 counterexample: a query whose question contains the professional
keyword "portfolio" returns "professional" even with portfolio value
1,500,000 — the keyword check precedes the threshold check, refuting the
claim's unconditional "expert" for that value. -/
theorem C5_certification_counterexample :
    Project.get_required_certification
      { question := "Please review my portfolio", context := { user_id := "user@example.com" },
        portfolio_value := some 1500000 } = "professional" ∧
    Project.get_required_certification
      { question := "Please review my portfolio", context := { user_id := "user@example.com" },
        portfolio_value := some 1500000 } ≠ "expert" := by
  refine ⟨by decide, by decide⟩

/-- C7: the root Action Gate's composite market-data check is the logical AND
of the two per-endpoint PDP checks — it allows if and only if both endpoint
checks allow, so any single denial makes the composite result false. -/
theorem C7_market_data_requires_all (f : String → String → Resource → Bool)
    (user_id : String) (context : Root.UserContext) :
    Root.validate_market_data_access (pureOf f) user_id context =
      Except.ok (f user_id "access" (Resource.api "market_data") &&
        f user_id "access" (Resource.api "portfolio_analysis")) ∧
    (Root.validate_market_data_access (pureOf f) user_id context = Except.ok true ↔
      (f user_id "access" (Resource.api "market_data") = true ∧
       f user_id "access" (Resource.api "portfolio_analysis") = true)) := by
  have hmain : Root.validate_market_data_access (pureOf f) user_id context =
      Except.ok (f user_id "access" (Resource.api "market_data") &&
        f user_id "access" (Resource.api "portfolio_analysis")) := by
    simp [Root.validate_market_data_access, pureOf, wrapErr, bind, Except.bind, pure, Except.pure]
  refine ⟨hmain, ?_⟩
  rw [hmain]
  simp [Bool.and_eq_true]

/-- C9: the project Action Gate recognizes only the three enumerated actions;
for any other action string (such as "update_portfolio" or
"access_api_endpoint") it returns false no matter how the PDP answers, and
the set of PDP checks it issues is the same three fixed checks regardless of
the requested action (two PDPs agreeing on those three checks give identical
gate results for every action). -/
theorem C9_action_gate_closed_enum (f : String → String → Resource → Bool)
    (pdp1 pdp2 : Pdp) (user_id action : String) (context : Project.UserContext) :
    (action ∉ (["basic_advice", "portfolio_analysis", "specific_recommendations"] : List String) →
      Project.check_action_permissions (pureOf f) user_id action context = Except.ok false) ∧
    (pdp1 user_id "provide" (Resource.financial_action "basic_advice") =
        pdp2 user_id "provide" (Resource.financial_action "basic_advice") →
      pdp1 user_id "analyze" (Resource.financial_action "portfolio_analysis") =
        pdp2 user_id "analyze" (Resource.financial_action "portfolio_analysis") →
      pdp1 user_id "recommend" (Resource.financial_action "specific_recommendations") =
        pdp2 user_id "recommend" (Resource.financial_action "specific_recommendations") →
      Project.check_action_permissions pdp1 user_id action context =
        Project.check_action_permissions pdp2 user_id action context) := by
  constructor
  · intro hne
    simp only [List.mem_cons, List.not_mem_nil, or_false, not_or] at hne
    obtain ⟨h1, h2, h3⟩ := hne
    have e1 : (action == "basic_advice") = false := by simp [h1]
    have e2 : (action == "portfolio_analysis") = false := by simp [h2]
    have e3 : (action == "specific_recommendations") = false := by simp [h3]
    simp [Project.check_action_permissions, pureOf, wrapErr, bind, Except.bind, pure,
      Except.pure, List.lookup, e1, e2, e3]
  · intro h1 h2 h3
    simp only [Project.check_action_permissions, h1, h2, h3]

/-- C9 witness: the spec-enumerated action "update_portfolio" is outside the
gate's dictionary and is refused even under an allow-everything PDP. -/
theorem C9_action_gate_closed_enum_witness :
    ("update_portfolio" ∉
      (["basic_advice", "portfolio_analysis", "specific_recommendations"] : List String)) ∧
    Project.check_action_permissions (pureOf allowAll) "user@example.com" "update_portfolio"
      { user_id := "user@example.com" } = Except.ok false :=
  ⟨by decide,
    (C9_action_gate_closed_enum allowAll (pureOf allowAll) (pureOf allowAll) "user@example.com"
      "update_portfolio" { user_id := "user@example.com" }).1 (by decide)⟩

/-- C6 (amended): every gate in both variants wraps a raising PDP call in a
`SecurityError` whose message starts with that gate's fixed context string and
re-raises it — it never returns an allow or a deny decision in that case and
never swallows the error.  The four project-variant perimeter gates use
pairwise distinct (gate-identifying) context strings; in the root variant the
prompt and response gates share the context "Permission check failed: ", so
their errors do not identify the gate. -/
theorem C6_gate_error_propagation (e : PermitApiError) (pdp : Pdp) (user_id action : String)
    (q : Project.FinancialQuery) (pctx : Project.UserContext) (resp : Project.FinancialResponse)
    (q2 : Root.FinancialQuery) (rctx : Root.UserContext) (resp2 : Root.FinancialResponse) :
    (Project.validate_financial_query (errPdp e) user_id q =
      Except.error { msg := "Advice permission check failed: " ++ e.msg }) ∧
    (Project.access_financial_knowledge (errPdp e) user_id q =
      Except.error { msg := "Documentation access check failed: " ++ e.msg }) ∧
    (Project.check_action_permissions (errPdp e) user_id action pctx =
      Except.error { msg := "Action permission check failed: " ++ e.msg }) ∧
    (Project.validate_financial_response (errPdp e) user_id resp pctx =
      Except.error { msg := "Response validation failed: " ++ e.msg }) ∧
    (Root.validate_financial_query (errPdp e) user_id q2 =
      Except.error { msg := "Permission check failed: " ++ e.msg }) ∧
    (Root.validate_financial_advice (errPdp e) user_id resp2 rctx =
      Except.error { msg := "Permission check failed: " ++ e.msg }) ∧
    (Root.access_financial_knowledge (errPdp e) user_id q2 =
      Except.error { msg := "Documentation access check failed: " ++ e.msg }) ∧
    (Root.validate_market_data_access (errPdp e) user_id rctx =
      Except.error { msg := "API permission check failed: " ++ e.msg }) ∧
    ((∃ v, Project.validate_financial_query pdp user_id q = Except.ok v) ∨
      (∃ m, Project.validate_financial_query pdp user_id q =
        Except.error { msg := "Advice permission check failed: " ++ m })) ∧
    ((∃ v, Project.access_financial_knowledge pdp user_id q = Except.ok v) ∨
      (∃ m, Project.access_financial_knowledge pdp user_id q =
        Except.error { msg := "Documentation access check failed: " ++ m })) ∧
    ((∃ v, Project.check_action_permissions pdp user_id action pctx = Except.ok v) ∨
      (∃ m, Project.check_action_permissions pdp user_id action pctx =
        Except.error { msg := "Action permission check failed: " ++ m })) ∧
    ((∃ v, Project.validate_financial_response pdp user_id resp pctx = Except.ok v) ∨
      (∃ m, Project.validate_financial_response pdp user_id resp pctx =
        Except.error { msg := "Response validation failed: " ++ m })) ∧
    ((∃ v, Root.validate_financial_query pdp user_id q2 = Except.ok v) ∨
      (∃ m, Root.validate_financial_query pdp user_id q2 =
        Except.error { msg := "Permission check failed: " ++ m })) ∧
    ((∃ v, Root.validate_financial_advice pdp user_id resp2 rctx = Except.ok v) ∨
      (∃ m, Root.validate_financial_advice pdp user_id resp2 rctx =
        Except.error { msg := "Permission check failed: " ++ m })) ∧
    ((∃ v, Root.access_financial_knowledge pdp user_id q2 = Except.ok v) ∨
      (∃ m, Root.access_financial_knowledge pdp user_id q2 =
        Except.error { msg := "Documentation access check failed: " ++ m })) ∧
    ((∃ v, Root.validate_market_data_access pdp user_id rctx = Except.ok v) ∨
      (∃ m, Root.validate_market_data_access pdp user_id rctx =
        Except.error { msg := "API permission check failed: " ++ m })) ∧
    (∀ s : String, ({ msg := "Advice permission check failed: " ++ s } : SecurityError) ≠
      { msg := "Documentation access check failed: " ++ s }) ∧
    (∀ s : String, ({ msg := "Advice permission check failed: " ++ s } : SecurityError) ≠
      { msg := "Action permission check failed: " ++ s }) ∧
    (∀ s : String, ({ msg := "Advice permission check failed: " ++ s } : SecurityError) ≠
      { msg := "Response validation failed: " ++ s }) ∧
    (∀ s : String, ({ msg := "Documentation access check failed: " ++ s } : SecurityError) ≠
      { msg := "Action permission check failed: " ++ s }) ∧
    (∀ s : String, ({ msg := "Documentation access check failed: " ++ s } : SecurityError) ≠
      { msg := "Response validation failed: " ++ s }) ∧
    (∀ s : String, ({ msg := "Action permission check failed: " ++ s } : SecurityError) ≠
      { msg := "Response validation failed: " ++ s }) :=
  ⟨rfl, rfl, rfl, rfl, rfl, rfl, rfl, rfl,
   wrapErr_cases _ _, wrapErr_cases _ _, wrapErr_cases _ _, wrapErr_cases _ _,
   wrapErr_cases _ _, wrapErr_cases _ _, wrapErr_cases _ _, wrapErr_cases _ _,
   fun s h => string_append_ne_left _ _ s (by decide) (congrArg SecurityError.msg h),
   fun s h => string_append_ne_left _ _ s (by decide) (congrArg SecurityError.msg h),
   fun s h => string_append_ne_left _ _ s (by decide) (congrArg SecurityError.msg h),
   fun s h => string_append_ne_left _ _ s (by decide) (congrArg SecurityError.msg h),
   fun s h => string_append_ne_left _ _ s (by decide) (congrArg SecurityError.msg h),
   fun s h => string_append_ne_left _ _ s (by decide) (congrArg SecurityError.msg h)⟩

/-- C6 counterexample: on the same PDP transport error, the root variant's
prompt gate and response-advice gate raise the *identical* `SecurityError`, so
that error does not carry gate-identifying context as the claim states. -/
theorem C6_gate_error_counterexample :
    Root.validate_financial_query (errPdp { msg := "connection refused" }) "user@example.com"
        { question := "hello", context := { user_id := "user@example.com" } } =
      Except.error { msg := "Permission check failed: connection refused" } ∧
    Root.validate_financial_advice (errPdp { msg := "connection refused" }) "user@example.com"
        { answer := "hello" } { user_id := "user@example.com" } =
      Except.error { msg := "Permission check failed: connection refused" } :=
  ⟨rfl, rfl⟩

/-- C8 (spec-modelled): in the per-turn pipeline modelled from the spec, if an
invoked gate's Decision is `allowed = false` or the gate raises a
`SecurityError`, the turn ends in a terminal state other than `done` (so no
agent action or response is emitted), the invocation trace is exactly the
pipeline prefix ending at that gate, and no later gate of the pipeline runs. -/
theorem C8_short_circuit (g : GateId → Except SecurityError Bool) (k : GateId)
    (hk : k ∈ (runTurn g).2)
    (hden : g k = Except.ok false ∨ ∃ e, g k = Except.error e) :
    (runTurn g).1 ≠ TurnState.done ∧
    (runTurn g).2 = List.take (gateIdx k + 1) gateOrder ∧
    ∀ k', gateIdx k < gateIdx k' → k' ∉ (runTurn g).2 := by
  have hne : g k ≠ Except.ok true := by
    rcases hden with h | ⟨e, h⟩ <;> simp [h]
  rcases hP : g GateId.prompt with eP | bP
  · have ht : runTurn g = (TurnState.failed, [GateId.prompt]) := by
      simp [runTurn, runGates, gateOrder, hP]
    rw [ht] at hk
    simp only [List.mem_singleton] at hk
    subst hk
    rw [ht]
    exact ⟨by decide, by decide, by intro k' hlt; revert hlt; cases k' <;> decide⟩
  · cases bP with
    | false =>
      have ht : runTurn g = (TurnState.denied, [GateId.prompt]) := by
        simp [runTurn, runGates, gateOrder, hP]
      rw [ht] at hk
      simp only [List.mem_singleton] at hk
      subst hk
      rw [ht]
      exact ⟨by decide, by decide, by intro k' hlt; revert hlt; cases k' <;> decide⟩
    | true =>
      rcases hR : g GateId.retrieval with eR | bR
      · have ht : runTurn g = (TurnState.failed, [GateId.prompt, GateId.retrieval]) := by
          simp [runTurn, runGates, gateOrder, hP, hR]
        rw [ht] at hk
        simp only [List.mem_cons, List.not_mem_nil, or_false] at hk
        have hkk : k = GateId.retrieval := by
          rcases hk with hk | hk
          · exact absurd hP (hk ▸ hne)
          · exact hk
        subst hkk
        rw [ht]
        exact ⟨by decide, by decide, by intro k' hlt; revert hlt; cases k' <;> decide⟩
      · cases bR with
        | false =>
          have ht : runTurn g = (TurnState.denied, [GateId.prompt, GateId.retrieval]) := by
            simp [runTurn, runGates, gateOrder, hP, hR]
          rw [ht] at hk
          simp only [List.mem_cons, List.not_mem_nil, or_false] at hk
          have hkk : k = GateId.retrieval := by
            rcases hk with hk | hk
            · exact absurd hP (hk ▸ hne)
            · exact hk
          subst hkk
          rw [ht]
          exact ⟨by decide, by decide, by intro k' hlt; revert hlt; cases k' <;> decide⟩
        | true =>
          rcases hA : g GateId.action with eA | bA
          · have ht : runTurn g =
                (TurnState.failed, [GateId.prompt, GateId.retrieval, GateId.action]) := by
              simp [runTurn, runGates, gateOrder, hP, hR, hA]
            rw [ht] at hk
            simp only [List.mem_cons, List.not_mem_nil, or_false] at hk
            have hkk : k = GateId.action := by
              rcases hk with hk | hk | hk
              · exact absurd hP (hk ▸ hne)
              · exact absurd hR (hk ▸ hne)
              · exact hk
            subst hkk
            rw [ht]
            exact ⟨by decide, by decide, by intro k' hlt; revert hlt; cases k' <;> decide⟩
          · cases bA with
            | false =>
              have ht : runTurn g =
                  (TurnState.denied, [GateId.prompt, GateId.retrieval, GateId.action]) := by
                simp [runTurn, runGates, gateOrder, hP, hR, hA]
              rw [ht] at hk
              simp only [List.mem_cons, List.not_mem_nil, or_false] at hk
              have hkk : k = GateId.action := by
                rcases hk with hk | hk | hk
                · exact absurd hP (hk ▸ hne)
                · exact absurd hR (hk ▸ hne)
                · exact hk
              subst hkk
              rw [ht]
              exact ⟨by decide, by decide, by intro k' hlt; revert hlt; cases k' <;> decide⟩
            | true =>
              rcases hRe : g GateId.response with eRe | bRe
              · have ht : runTurn g =
                    (TurnState.failed,
                      [GateId.prompt, GateId.retrieval, GateId.action, GateId.response]) := by
                  simp [runTurn, runGates, gateOrder, hP, hR, hA, hRe]
                rw [ht] at hk
                simp only [List.mem_cons, List.not_mem_nil, or_false] at hk
                have hkk : k = GateId.response := by
                  rcases hk with hk | hk | hk | hk
                  · exact absurd hP (hk ▸ hne)
                  · exact absurd hR (hk ▸ hne)
                  · exact absurd hA (hk ▸ hne)
                  · exact hk
                subst hkk
                rw [ht]
                exact ⟨by decide, by decide, by intro k' hlt; revert hlt; cases k' <;> decide⟩
              · cases bRe with
                | false =>
                  have ht : runTurn g =
                      (TurnState.denied,
                        [GateId.prompt, GateId.retrieval, GateId.action, GateId.response]) := by
                    simp [runTurn, runGates, gateOrder, hP, hR, hA, hRe]
                  rw [ht] at hk
                  simp only [List.mem_cons, List.not_mem_nil, or_false] at hk
                  have hkk : k = GateId.response := by
                    rcases hk with hk | hk | hk | hk
                    · exact absurd hP (hk ▸ hne)
                    · exact absurd hR (hk ▸ hne)
                    · exact absurd hA (hk ▸ hne)
                    · exact hk
                  subst hkk
                  rw [ht]
                  exact ⟨by decide, by decide, by intro k' hlt; revert hlt; cases k' <;> decide⟩
                | true =>
                  exfalso
                  cases k
                  · exact hne hP
                  · exact hne hR
                  · exact hne hA
                  · exact hne hRe

/-- C8 witness: with every gate denying, the turn invokes only the prompt
gate, ends in a non-`done` state, and the trace is the one-gate pipeline
prefix. -/
theorem C8_short_circuit_witness :
    GateId.prompt ∈ (runTurn denyAllGates).2 ∧
    (runTurn denyAllGates).1 ≠ TurnState.done ∧
    (runTurn denyAllGates).2 = List.take (gateIdx GateId.prompt + 1) gateOrder :=
  ⟨by decide,
   (C8_short_circuit denyAllGates GateId.prompt (by decide) (Or.inl rfl)).1,
   (C8_short_circuit denyAllGates GateId.prompt (by decide) (Or.inl rfl)).2.1⟩

/-- C6 witness: the project prompt gate under an always-raising PDP surfaces
the wrapped gate-specific error at a concrete input. -/
theorem C6_gate_error_propagation_witness :
    Project.validate_financial_query (errPdp { msg := "boom" }) "user@example.com"
        { question := "hello", context := { user_id := "user@example.com" } } =
      Except.error { msg := "Advice permission check failed: boom" } :=
  (C6_gate_error_propagation { msg := "boom" } (pureOf allowAll) "user@example.com"
    "basic_advice" { question := "hello", context := { user_id := "user@example.com" } }
    { user_id := "user@example.com" } { answer := "hello" }
    { question := "hello", context := { user_id := "user@example.com" } }
    { user_id := "user@example.com" } { answer := "hello" }).1
